import Mathlib

/-!
Verification development for the ansible-runner-web repository.

The repository is a small Go web service that materializes user-submitted
playbook/inventory text into files, queues run-triggers on an in-process
channel consumed by a fixed pool of two workers, executes an external
ansible process per task with a wall-clock timeout, and persists task
lifecycle state (status / timestamp / error) through gorm.

Two variants of the worker pipeline exist in the sources:
  * the `part0` variant (src/unnamed/part_000), and
  * the `main` variant (src/cmd/runner/main.go, third document).
Definitions below carry a `_part0` / `_main` suffix when the variants differ.

Go strings are modelled as lists of characters; stateful pieces (the gorm
row updates, the worker loop, the dispatch channel) are modelled as explicit
state-passing functions or a step relation.
-/

namespace AnsibleRunnerWeb

/-- A Go string, modelled as its list of characters. -/
abbrev GoStr := List Char

/-- Characters of a Lean string literal, used to transcribe Go literals. -/
def gs (s : String) : GoStr := s.data

/-! ### bytes.Buffer -/

/-- `bytes.Buffer` contents; `(*bytes.Buffer).WriteString` appends. -/
def writeString (w : GoStr) (s : GoStr) : GoStr := w ++ s

/-! ### strings package operations used by createTask -/

/-- `strings.ReplaceAll(s, "\r", "")`: every carriage return is removed
(the pattern is a single character, so replace-all is char-wise removal). -/
def replaceAllCR : GoStr → GoStr
  | [] => []
  | c :: rest => if c = '\r' then replaceAllCR rest else c :: replaceAllCR rest

/-- `strings.Split(s, "\n")`: the (always non-empty) list of chunks of `s`
separated by newline characters, empty chunks included. -/
def splitNL : GoStr → List GoStr
  | [] => [[]]
  | c :: rest =>
    if c = '\n' then [] :: splitNL rest
    else
      match splitNL rest with
      | [] => [[c]]
      | l :: ls => (c :: l) :: ls

/-! ### createTask: artifact materialization

Source (part_000 lines 205-211, main.go lines 352-359): a `bytes.Buffer`
receives the fixed header lines, then every line of the CR-stripped
submitted body prefixed with two extra spaces and a newline.  The `main`
variant writes one extra fixed line (`  gather_facts: false`). -/

/-- part_000 createTask, playbook script contents (lines 205-211). -/
def createTaskPlaybookScript_part0 (playbookContent : GoStr) : GoStr :=
  let w : GoStr := []
  let w := writeString w (gs "- hosts: servers\n")
  let w := writeString w (gs "  tasks:\n")
  let playbookContent := replaceAllCR playbookContent
  (splitNL playbookContent).foldl (fun w v => writeString w (gs "  " ++ v ++ gs "\n")) w

/-- main.go createTask, playbook script contents (lines 352-359). -/
def createTaskPlaybookScript_main (playbookContent : GoStr) : GoStr :=
  let w : GoStr := []
  let w := writeString w (gs "- hosts: servers\n")
  let w := writeString w (gs "  gather_facts: false\n")
  let w := writeString w (gs "  tasks:\n")
  let playbookContent := replaceAllCR playbookContent
  (splitNL playbookContent).foldl (fun w v => writeString w (gs "  " ++ v ++ gs "\n")) w

/-- createTask, inventory file contents (part_000 lines 229-231,
main.go lines 377-379; identical in both variants): the buffer is reset,
then receives the fixed host-group header and the body verbatim. -/
def createTaskInventoryFile (inventoryContent : GoStr) : GoStr :=
  let w : GoStr := []
  let w := writeString w (gs "[servers]\n")
  writeString w inventoryContent

/-! ### Helper lemmas about splitNL -/

theorem splitNL_ne_nil (s : GoStr) : splitNL s ≠ [] := by
  cases s with
  | nil => simp [splitNL]
  | cons c rest =>
    simp only [splitNL]
    split
    · simp
    · cases h : splitNL rest <;> simp

theorem splitNL_newline_cons (rest : GoStr) :
    splitNL ('\n' :: rest) = [] :: splitNL rest := by
  simp [splitNL]

theorem splitNL_cons_of_ne (c : Char) (rest : GoStr) (hc : c ≠ '\n') :
    splitNL (c :: rest) = (splitNL rest).modifyHead (c :: ·) := by
  simp only [splitNL, if_neg hc]
  cases h : splitNL rest with
  | nil => exact absurd h (splitNL_ne_nil rest)
  | cons l ls => simp

theorem splitNL_append_of_noNL (xs ys : GoStr) (hxs : ∀ c ∈ xs, c ≠ '\n') :
    splitNL (xs ++ ys) = (splitNL ys).modifyHead (xs ++ ·) := by
  induction xs with
  | nil =>
    cases h : splitNL ys with
    | nil => exact absurd h (splitNL_ne_nil ys)
    | cons l ls => simp [h]
  | cons c xs ih =>
    have hc : c ≠ '\n' := hxs c (List.mem_cons_self c xs)
    have hxs' : ∀ c' ∈ xs, c' ≠ '\n' := fun c' h' => hxs c' (List.mem_cons_of_mem c h')
    rw [List.cons_append, splitNL_cons_of_ne c (xs ++ ys) hc, ih hxs']
    cases h : splitNL ys with
    | nil => exact absurd h (splitNL_ne_nil ys)
    | cons l ls => simp

/-- Splitting a newline-free chunk followed by a newline peels off that chunk
as the first line. -/
theorem splitNL_line_cons (xs rest : GoStr) (hxs : ∀ c ∈ xs, c ≠ '\n') :
    splitNL (xs ++ '\n' :: rest) = xs :: splitNL rest := by
  rw [splitNL_append_of_noNL xs ('\n' :: rest) hxs, splitNL_newline_cons]
  simp

/-- Lines produced by splitNL contain no newline character. -/
theorem splitNL_noNL (s : GoStr) : ∀ l ∈ splitNL s, ∀ c ∈ l, c ≠ '\n' := by
  induction s with
  | nil => intro l hl; simp [splitNL] at hl; simp [hl]
  | cons c rest ih =>
    intro l hl
    by_cases hc : c = '\n'
    · subst hc
      rw [splitNL_newline_cons] at hl
      rcases List.mem_cons.mp hl with h | h
      · simp [h]
      · exact ih l h
    · rw [splitNL_cons_of_ne c rest hc] at hl
      cases h : splitNL rest with
      | nil => exact absurd h (splitNL_ne_nil rest)
      | cons l₀ ls =>
        rw [h] at hl
        simp only [List.modifyHead_cons] at hl
        rcases List.mem_cons.mp hl with h' | h'
        · subst h'
          intro c' hc'
          rcases List.mem_cons.mp hc' with h'' | h''
          · simpa [h''] using hc
          · exact ih l₀ (h ▸ List.mem_cons_self l₀ ls) c' h''
        · exact ih l (h ▸ List.mem_cons_of_mem l₀ h')

/-- Removing carriage returns commutes with splitting on newlines. -/
theorem splitNL_replaceAllCR (s : GoStr) :
    splitNL (replaceAllCR s) = (splitNL s).map replaceAllCR := by
  induction s with
  | nil => simp [splitNL, replaceAllCR]
  | cons c rest ih =>
    by_cases hr : c = '\r'
    · subst hr
      have hne : ('\r' : Char) ≠ '\n' := by decide
      rw [show replaceAllCR ('\r' :: rest) = replaceAllCR rest from by simp [replaceAllCR],
        splitNL_cons_of_ne '\r' rest hne, ih]
      cases h : splitNL rest with
      | nil => exact absurd h (splitNL_ne_nil rest)
      | cons l ls => simp [replaceAllCR]
    · have hrc : replaceAllCR (c :: rest) = c :: replaceAllCR rest := by
        simp [replaceAllCR, hr]
      by_cases hc : c = '\n'
      · subst hc
        rw [hrc, splitNL_newline_cons, splitNL_newline_cons, ih]
        simp [replaceAllCR]
      · rw [hrc, splitNL_cons_of_ne c (replaceAllCR rest) hc,
          splitNL_cons_of_ne c rest hc, ih]
        cases h : splitNL rest with
        | nil => exact absurd h (splitNL_ne_nil rest)
        | cons l ls => simp [replaceAllCR, hr]

/-- The buffer fold over the split lines appends the two-space-indented,
newline-terminated lines. -/
theorem foldl_writeString_eq (ls : List GoStr) (w₀ : GoStr) :
    ls.foldl (fun w v => writeString w (gs "  " ++ v ++ gs "\n")) w₀
      = w₀ ++ (ls.map (fun v => gs "  " ++ v ++ gs "\n")).flatten := by
  induction ls generalizing w₀ with
  | nil => simp
  | cons l ls ih =>
    rw [List.foldl_cons, ih, List.map_cons, List.flatten_cons]
    simp [writeString, List.append_assoc]

/-- Splitting the concatenation of indented newline-terminated lines
recovers the indented lines (plus the empty trailing chunk). -/
theorem splitNL_flatten_indented (ls : List GoStr)
    (hls : ∀ l ∈ ls, ∀ c ∈ l, c ≠ '\n') :
    splitNL ((ls.map (fun v => gs "  " ++ v ++ gs "\n")).flatten)
      = ls.map (fun v => gs "  " ++ v) ++ [[]] := by
  induction ls with
  | nil => simp [splitNL]
  | cons l ls ih =>
    have hl : ∀ c ∈ gs "  " ++ l, c ≠ '\n' := by
      intro c hc
      rcases List.mem_append.mp hc with h | h
      · have h2 : gs "  " = [' ', ' '] := rfl
        rw [h2] at h
        rcases List.mem_cons.mp h with h' | h'
        · subst h'; decide
        · rcases List.mem_cons.mp h' with h'' | h''
          · subst h''; decide
          · simp at h''
      · exact hls l (List.mem_cons_self l ls) c h
    have hrest : ∀ l' ∈ ls, ∀ c ∈ l', c ≠ '\n' :=
      fun l' h' => hls l' (List.mem_cons_of_mem l h')
    simp only [List.map_cons, List.flatten_cons]
    have : gs "  " ++ l ++ gs "\n" ++ (ls.map (fun v => gs "  " ++ v ++ gs "\n")).flatten
        = (gs "  " ++ l) ++ '\n' :: (ls.map (fun v => gs "  " ++ v ++ gs "\n")).flatten := by
      simp [gs, List.append_assoc]
    rw [this, splitNL_line_cons _ _ hl, ih hrest]
    simp

/-- The line decomposition of the indented body block shared by both
script variants. -/
theorem splitNL_script_body (body : GoStr) :
    splitNL (((splitNL (replaceAllCR body)).map
        (fun v => gs "  " ++ v ++ gs "\n")).flatten)
      = (splitNL body).map (fun v => gs "  " ++ replaceAllCR v) ++ [[]] := by
  rw [splitNL_flatten_indented _ (splitNL_noNL (replaceAllCR body)),
    splitNL_replaceAllCR, List.map_map]
  rfl

/-- C3: for every submitted playbook body, the materialized script's lines
are the fixed host-group header line and the task-list marker line (the
`main` variant inserts its fixed `gather_facts` line between them), followed
by every line of the submitted body with carriage returns removed and
re-indented exactly two spaces deeper, and the empty chunk coming from the
final newline. -/
theorem createTask_playbook_script_lines (body : GoStr) :
    splitNL (createTaskPlaybookScript_part0 body)
      = gs "- hosts: servers" :: gs "  tasks:"
          :: ((splitNL body).map (fun v => gs "  " ++ replaceAllCR v) ++ [[]])
  ∧ splitNL (createTaskPlaybookScript_main body)
      = gs "- hosts: servers" :: gs "  gather_facts: false" :: gs "  tasks:"
          :: ((splitNL body).map (fun v => gs "  " ++ replaceAllCR v) ++ [[]]) := by
  have hdr1 : ∀ c ∈ gs "- hosts: servers", c ≠ '\n' := by decide
  have hdr2 : ∀ c ∈ gs "  tasks:", c ≠ '\n' := by decide
  have hdr3 : ∀ c ∈ gs "  gather_facts: false", c ≠ '\n' := by decide
  constructor
  · have h1 : createTaskPlaybookScript_part0 body
        = gs "- hosts: servers" ++ '\n' :: (gs "  tasks:" ++ '\n' ::
            ((splitNL (replaceAllCR body)).map
              (fun v => gs "  " ++ v ++ gs "\n")).flatten) := by
      simp only [createTaskPlaybookScript_part0]
      rw [foldl_writeString_eq]
      simp only [writeString, List.nil_append]
      rw [show gs "- hosts: servers\n" = gs "- hosts: servers" ++ ['\n'] from rfl,
        show gs "  tasks:\n" = gs "  tasks:" ++ ['\n'] from rfl]
      simp [List.append_assoc]
    rw [h1, splitNL_line_cons _ _ hdr1, splitNL_line_cons _ _ hdr2,
      splitNL_script_body]
  · have h1 : createTaskPlaybookScript_main body
        = gs "- hosts: servers" ++ '\n' :: (gs "  gather_facts: false" ++ '\n' ::
            (gs "  tasks:" ++ '\n' ::
              ((splitNL (replaceAllCR body)).map
                (fun v => gs "  " ++ v ++ gs "\n")).flatten)) := by
      simp only [createTaskPlaybookScript_main]
      rw [foldl_writeString_eq]
      simp only [writeString, List.nil_append]
      rw [show gs "- hosts: servers\n" = gs "- hosts: servers" ++ ['\n'] from rfl,
        show gs "  gather_facts: false\n" = gs "  gather_facts: false" ++ ['\n'] from rfl,
        show gs "  tasks:\n" = gs "  tasks:" ++ ['\n'] from rfl]
      simp [List.append_assoc]
    rw [h1, splitNL_line_cons _ _ hdr1, splitNL_line_cons _ _ hdr3,
      splitNL_line_cons _ _ hdr2, splitNL_script_body]

/-- C4: for every submitted inventory body, the materialized inventory file
is exactly the fixed host-group header line followed by the body verbatim:
dropping the ten header characters recovers the body unchanged. -/
theorem createTask_inventory_file_verbatim (body : GoStr) :
    createTaskInventoryFile body = gs "[servers]\n" ++ body
  ∧ (createTaskInventoryFile body).take (gs "[servers]\n").length = gs "[servers]\n"
  ∧ (createTaskInventoryFile body).drop (gs "[servers]\n").length = body := by
  refine ⟨rfl, ?_, ?_⟩ <;> simp [createTaskInventoryFile, writeString]

/-- C3 witness: the theorem applied to the spec's example playbook body. -/
theorem createTask_playbook_script_lines_witness :
    splitNL (createTaskPlaybookScript_part0 (gs "- name: ping\n  ping:"))
      = gs "- hosts: servers" :: gs "  tasks:"
          :: ((splitNL (gs "- name: ping\n  ping:")).map
                (fun v => gs "  " ++ replaceAllCR v) ++ [[]])
  ∧ splitNL (createTaskPlaybookScript_main (gs "- name: ping\n  ping:"))
      = gs "- hosts: servers" :: gs "  gather_facts: false" :: gs "  tasks:"
          :: ((splitNL (gs "- name: ping\n  ping:")).map
                (fun v => gs "  " ++ replaceAllCR v) ++ [[]]) :=
  createTask_playbook_script_lines (gs "- name: ping\n  ping:")

/-- C4 witness: the theorem applied to the spec's example inventory body. -/
theorem createTask_inventory_file_verbatim_witness :
    createTaskInventoryFile (gs "host1 ansible_host=10.0.0.5")
      = gs "[servers]\n" ++ gs "host1 ansible_host=10.0.0.5"
  ∧ (createTaskInventoryFile (gs "host1 ansible_host=10.0.0.5")).take
        (gs "[servers]\n").length = gs "[servers]\n"
  ∧ (createTaskInventoryFile (gs "host1 ansible_host=10.0.0.5")).drop
        (gs "[servers]\n").length = gs "host1 ansible_host=10.0.0.5" :=
  createTask_inventory_file_verbatim (gs "host1 ansible_host=10.0.0.5")

/-! ### Task persistence

The `tasks` table columns of the gorm `Task` model.  `updatedAt` models
`time.Time` as the nanosecond count (the zero value of `time.Time` is 0;
`time.Now()` is always positive). -/

structure TaskRow where
  id : Nat
  taskID : GoStr
  name : GoStr
  status : Nat
  updatedAt : Nat
  playbookID : Nat
  inventoryID : Nat
  userID : Nat
  error : GoStr
deriving Repr, DecidableEq

/-- gorm `Updates` called with a struct value: per gorm's documented
struct-update semantics, only the non-zero fields of the passed struct are
assigned to the matched row; zero-valued fields (0, "", the zero time) are
skipped and the row's column keeps its previous value. -/
def gormUpdates (row : TaskRow) (u : TaskRow) : TaskRow where
  id := if u.id ≠ 0 then u.id else row.id
  taskID := if u.taskID ≠ [] then u.taskID else row.taskID
  name := if u.name ≠ [] then u.name else row.name
  status := if u.status ≠ 0 then u.status else row.status
  updatedAt := if u.updatedAt ≠ 0 then u.updatedAt else row.updatedAt
  playbookID := if u.playbookID ≠ 0 then u.playbookID else row.playbookID
  inventoryID := if u.inventoryID ≠ 0 then u.inventoryID else row.inventoryID
  userID := if u.userID ≠ 0 then u.userID else row.userID
  error := if u.error ≠ [] then u.error else row.error

/-- The all-zero `Task{}` struct literal: fields not named in a Go composite
literal are zero-valued. -/
def zeroTask : TaskRow :=
  { id := 0, taskID := [], name := [], status := 0, updatedAt := 0,
    playbookID := 0, inventoryID := 0, userID := 0, error := [] }

/-- part_000 updateTask (lines 306-317): targeted update through
`db.Where("id = ?", task.ID).Updates(Task{Status:…, UpdatedAt: time.Now(),
Error:…})`, applied to the matched row. -/
def updateTask_part0 (row : TaskRow) (task : TaskRow) (now : Nat) : TaskRow :=
  gormUpdates row { zeroTask with status := task.status, updatedAt := now,
                                  error := task.error }

/-- main.go updateTask (lines 454-464): same targeted update but the struct
passed to `Updates` names only `Status` and `UpdatedAt` — the in-memory
`task.Error` is not part of the update. -/
def updateTask_main (row : TaskRow) (task : TaskRow) (now : Nat) : TaskRow :=
  let _ := task.error
  gormUpdates row { zeroTask with status := task.status, updatedAt := now }

/-- The worker's "mark running" update (part_000 lines 338-341, main.go
lines 485-488): `db.Where("task_id = ?", taskId).Updates(Task{Status: 1,
UpdatedAt: time.Now()})`. -/
def markTaskRunning (row : TaskRow) (now : Nat) : TaskRow :=
  gormUpdates row { zeroTask with status := 1, updatedAt := now }

/-! ### runAnsiblePlaybook

The external process, the JSON-stream parser and the result-file write are
outside the repository; their outcomes enter as oracle arguments:
`execErr` is what `exec.Execute(ctx)` returned (`some e` on non-zero exit
or on the wall-clock context deadline firing), `parseOutcome` is what
`results.ParseJSONResultsStream` returned, and `writeErr` is what
`os.WriteFile(resultPath, …)` returned. -/

structure RunEffect where
  returnedError : Option GoStr
  wroteResultJSON : Bool
deriving Repr, DecidableEq

/-- The wall-clock timeout of part_000 runAnsiblePlaybook (line 365):
`context.WithTimeout(…, time.Duration(30)*time.Minute)`. -/
def runTimeoutMinutes_part0 : Nat := 30

/-- The wall-clock timeout of main.go runAnsiblePlaybook (line 512):
`context.WithTimeout(…, time.Duration(10)*time.Minute)`. -/
def runTimeoutMinutes_main : Nat := 10

/-- part_000 runAnsiblePlaybook (lines 364-411): an `exec.Execute` error is
only printed (`fmt.Printf("[%s] failed to exec: %v", …)`) — control falls
through; `io.ReadAll` of the in-memory `bytes.Buffer` never fails
(`readErr` is kept as an oracle for fidelity to the `return fmt.Errorf`
branch, but is always `none` for a `bytes.Buffer`); `result.json` is then
written unconditionally, a write failure again only printed; the function
returns nil. -/
def runAnsiblePlaybook_part0 (_execErr : Option GoStr) (readErr : Option GoStr)
    (writeErr : Option GoStr) : RunEffect :=
  match readErr with
  | some e => { returnedError := some (gs "failed to read result: " ++ e),
                wroteResultJSON := false }
  | none =>
    { returnedError := none, wroteResultJSON := writeErr.isNone }

/-- main.go runAnsiblePlaybook (lines 511-552): an `exec.Execute` error is
returned at once; a `ParseJSONResultsStream` error is returned at once; in
both cases control never reaches the `os.WriteFile(resultPath, …)` call
(`json.MarshalIndent` of the parsed results value cannot fail). -/
def runAnsiblePlaybook_main (execErr : Option GoStr)
    (parseOutcome : Except GoStr Unit) (writeErr : Option GoStr) : RunEffect :=
  match execErr with
  | some e => { returnedError := some e, wroteResultJSON := false }
  | none =>
    match parseOutcome with
    | .error e => { returnedError := some e, wroteResultJSON := false }
    | .ok _ =>
      match writeErr with
      | some e => { returnedError := some e, wroteResultJSON := false }
      | none => { returnedError := none, wroteResultJSON := true }

/-! ### The worker loop -/

/-- part_000 worker (lines 347-354): on a run error the in-memory task gets
status 3 and the error text; on success status 2 and an empty error. -/
def workerFinalizeTask_part0 (task : TaskRow) (runErr : Option GoStr) : TaskRow :=
  match runErr with
  | some e => { task with status := 3, error := e }
  | none => { task with status := 2, error := [] }

/-- main.go worker (lines 494-500): on a run error the in-memory task gets
status 3 and the error text; on success only status 2 is set (the loaded
error field is left as read from the database). -/
def workerFinalizeTask_main (task : TaskRow) (runErr : Option GoStr) : TaskRow :=
  match runErr with
  | some e => { task with status := 3, error := e }
  | none => { task with status := 2 }

/-- Per-trigger oracle outcomes seen by one iteration of the worker loop
(part_000 lines 324-361, main.go lines 471-508). -/
structure TriggerEnv where
  lookupErr : Option GoStr
  markRunningErr : Option GoStr
  runErr : Option GoStr
  finalUpdateErr : Option GoStr
deriving Repr, DecidableEq

/-- The control decision a loop iteration ends with: every branch of the
loop body ends in `continue` (modelled `.next`); only a closed channel
(`ok == false`) returns from the loop. -/
inductive Ctl where
  | next
  | halt
deriving Repr, DecidableEq

structure TriggerResult where
  statusWrites : List Nat
  ctl : Ctl
  loggedError : Bool
deriving Repr, DecidableEq

/-- One iteration of the worker loop body for a dequeued task id, recording
which status values are committed to the task row, in order.  A failed
lookup logs and continues (nothing written); a failed status-1 update logs
and continues (the failed UPDATE commits nothing); otherwise status 1 is
written, the playbook is run, and the final updateTask writes 3 on a run
error or 2 on success — unless that update itself fails, which again only
logs and continues. -/
def processTrigger (env : TriggerEnv) : TriggerResult :=
  match env.lookupErr with
  | some _ => { statusWrites := [], ctl := .next, loggedError := true }
  | none =>
    match env.markRunningErr with
    | some _ => { statusWrites := [], ctl := .next, loggedError := true }
    | none =>
      match env.finalUpdateErr with
      | some _ => { statusWrites := [1], ctl := .next, loggedError := true }
      | none =>
        { statusWrites := [1, if env.runErr.isSome then 3 else 2],
          ctl := .next, loggedError := false }

/-- startRunAnsiblePlaybookService, the dispatch loop: consumes the
channel's deliveries in order until the channel is closed, honouring each
iteration's control decision. -/
def serviceLoop : List TriggerEnv → List (List Nat)
  | [] => []
  | env :: rest =>
    match processTrigger env with
    | { statusWrites := ws, ctl := .next, .. } => ws :: serviceLoop rest
    | { statusWrites := ws, ctl := .halt, .. } => [ws]

/-- An iteration hit a database error (task lookup or one of the two
status updates). -/
def hitsDBError (env : TriggerEnv) : Bool :=
  env.lookupErr.isSome || env.markRunningErr.isSome || env.finalUpdateErr.isSome

/-! ### createTask control flow -/

structure CreateEffect where
  abortCalled : Bool
  playbookRowCreated : Bool
  inventoryRowCreated : Bool
  taskRowCreated : Bool
  enqueued : Bool
deriving Repr, DecidableEq

/-- createTask (part_000 lines 199-260, main.go lines 346-408) with the
file-write and db.Create outcomes as oracles.  The playbook-write failure
branch and every db.Create failure branch call AbortWithError and `return`;
the inventory-write failure branch calls AbortWithError but has no
`return`, so control falls through and the Inventory and Task rows are
still created.  The handler never touches taskChan: run-triggers are
enqueued only by the separate /runTask/:id handler. -/
def createTask (writePlaybookErr dbCreatePlaybookErr writeInventoryErr
    dbCreateInventoryErr dbCreateTaskErr : Option GoStr) : CreateEffect :=
  match writePlaybookErr with
  | some _ => { abortCalled := true, playbookRowCreated := false,
                inventoryRowCreated := false, taskRowCreated := false,
                enqueued := false }
  | none =>
    match dbCreatePlaybookErr with
    | some _ => { abortCalled := true, playbookRowCreated := false,
                  inventoryRowCreated := false, taskRowCreated := false,
                  enqueued := false }
    | none =>
      let abortedOnInventoryWrite := writeInventoryErr.isSome
      match dbCreateInventoryErr with
      | some _ => { abortCalled := true, playbookRowCreated := true,
                    inventoryRowCreated := false, taskRowCreated := false,
                    enqueued := false }
      | none =>
        match dbCreateTaskErr with
        | some _ => { abortCalled := true, playbookRowCreated := true,
                      inventoryRowCreated := true, taskRowCreated := false,
                      enqueued := false }
        | none =>
          { abortCalled := abortedOnInventoryWrite, playbookRowCreated := true,
            inventoryRowCreated := true, taskRowCreated := true,
            enqueued := false }

/-- A concrete loaded task row used to evaluate the worker at specific
inputs. -/
def sampleTask : TaskRow :=
  { id := 1, taskID := gs "3f2a", name := gs "ping-test", status := 1,
    updatedAt := 5, playbookID := 2, inventoryID := 3, userID := 1,
    error := [] }

/-! ### Claim theorems about the executor and persistence -/

/-- C1 (code-bug evidence): when the external process fails with the
wall-clock context-deadline error, the part_000 variant's
runAnsiblePlaybook swallows the error (it is only printed) and returns nil,
so the worker finalizes the task with status 2 (Succeeded) and an empty
error message — contradicting the claim that a timed-out run always ends
Failed (3) with a timeout-indicating error.  The main.go variant behaves as
claimed: the error is returned and the worker sets status 3 with the
timeout message. -/
theorem timeout_run_marked_succeeded_part0 :
    (runAnsiblePlaybook_part0 (some (gs "context deadline exceeded")) none none).returnedError
      = none
  ∧ (workerFinalizeTask_part0 sampleTask
      (runAnsiblePlaybook_part0 (some (gs "context deadline exceeded")) none none).returnedError).status
      = 2
  ∧ (runAnsiblePlaybook_main (some (gs "context deadline exceeded")) (.ok ()) none).returnedError
      = some (gs "context deadline exceeded")
  ∧ (workerFinalizeTask_main sampleTask
      (runAnsiblePlaybook_main (some (gs "context deadline exceeded")) (.ok ()) none).returnedError).status
      = 3
  ∧ (workerFinalizeTask_main sampleTask
      (runAnsiblePlaybook_main (some (gs "context deadline exceeded")) (.ok ()) none).returnedError).error
      = gs "context deadline exceeded" :=
  ⟨rfl, rfl, rfl, rfl, rfl⟩

/-- C2 (code-bug evidence): on a process failure the part_000 variant
returns nil and still writes result.json into the task directory, while the
claim (and the main.go variant) says a failing run returns a non-nil error
and writes no result artifact: main.go surfaces a non-zero exit before any
write, and surfaces a parse failure of the captured output before any
write. -/
theorem process_failure_effects :
    runAnsiblePlaybook_part0 (some (gs "exit status 2")) none none
      = { returnedError := none, wroteResultJSON := true }
  ∧ runAnsiblePlaybook_main (some (gs "exit status 2")) (.ok ()) none
      = { returnedError := some (gs "exit status 2"), wroteResultJSON := false }
  ∧ runAnsiblePlaybook_main none (.error (gs "unexpected end of JSON input")) none
      = { returnedError := some (gs "unexpected end of JSON input"),
          wroteResultJSON := false } :=
  ⟨rfl, rfl, rfl⟩

/-- C5: per dequeued run-trigger, the sequence of status values the worker
commits is one of [], [1], [1,2], [1,3]: it is strictly increasing along
Pending(0) → Running(1) → terminal(2/3), every written value lies in
{1,2,3} ⊆ {0,1,2,3}, and no step moves a task from a terminal status back
to Pending or Running within the processing of one trigger. -/
theorem worker_status_writes_monotone (env : TriggerEnv) :
    ((processTrigger env).statusWrites = []
      ∨ (processTrigger env).statusWrites = [1]
      ∨ (processTrigger env).statusWrites = [1, 2]
      ∨ (processTrigger env).statusWrites = [1, 3])
  ∧ List.Chain' (· < ·) (processTrigger env).statusWrites
  ∧ ∀ s ∈ (processTrigger env).statusWrites, 1 ≤ s ∧ s ≤ 3 := by
  rcases env with ⟨l, m, r, f⟩
  cases l <;> cases m <;> cases f <;> cases r <;> simp [processTrigger]

/-- C5 witness: the theorem applied at a concrete all-successful trigger. -/
theorem worker_status_writes_monotone_witness :
    (((processTrigger ⟨none, none, none, none⟩).statusWrites = []
      ∨ (processTrigger ⟨none, none, none, none⟩).statusWrites = [1]
      ∨ (processTrigger ⟨none, none, none, none⟩).statusWrites = [1, 2]
      ∨ (processTrigger ⟨none, none, none, none⟩).statusWrites = [1, 3])
  ∧ List.Chain' (· < ·) (processTrigger ⟨none, none, none, none⟩).statusWrites
  ∧ ∀ s ∈ (processTrigger ⟨none, none, none, none⟩).statusWrites, 1 ≤ s ∧ s ≤ 3)
  ∧ (processTrigger ⟨none, none, none, none⟩).statusWrites = [1, 2] :=
  ⟨worker_status_writes_monotone ⟨none, none, none, none⟩, rfl⟩

/-- C6 (code-bug evidence): after a failed execution (status 3, non-empty
error) the part_000 updateTask writes exactly the status, timestamp and
error columns and leaves the id, task id, name and foreign keys unchanged —
as the claim requires — but the main.go updateTask passes a struct naming
only Status and UpdatedAt, so the error message produced by the failed
execution is silently dropped and the error column keeps its old value. -/
theorem updateTask_main_drops_error :
    updateTask_part0 sampleTask
        { sampleTask with status := 3, error := gs "exit status 2" } 6
      = { sampleTask with status := 3, updatedAt := 6, error := gs "exit status 2" }
  ∧ (updateTask_main sampleTask
        { sampleTask with status := 3, error := gs "exit status 2" } 6).status = 3
  ∧ (updateTask_main sampleTask
        { sampleTask with status := 3, error := gs "exit status 2" } 6).error = [] := by
  decide

/-- C7 (code-bug evidence): a playbook-artifact write failure aborts task
creation before any row is persisted (and nothing is ever enqueued by this
handler), as the claim says; but an inventory-artifact write failure only
calls AbortWithError without returning, so the handler falls through and
persists both the Inventory row and the Task row. -/
theorem createTask_inventory_write_failure_persists_task :
    createTask (some (gs "permission denied")) none none none none
      = { abortCalled := true, playbookRowCreated := false,
          inventoryRowCreated := false, taskRowCreated := false,
          enqueued := false }
  ∧ createTask none none (some (gs "permission denied")) none none
      = { abortCalled := true, playbookRowCreated := true,
          inventoryRowCreated := true, taskRowCreated := true,
          enqueued := false } :=
  ⟨rfl, rfl⟩

/-- C8: the worker loop consumes exactly one entry per dequeued trigger and
never terminates early — every branch of the loop body (including the
task-lookup failure and both status-update failures) logs and continues, so
the loop processes every queued entry regardless of database errors. -/
theorem worker_loop_survives_db_errors :
    (∀ q : List TriggerEnv, (serviceLoop q).length = q.length)
  ∧ (∀ env : TriggerEnv, (processTrigger env).ctl = Ctl.next)
  ∧ (∀ env : TriggerEnv, hitsDBError env = true →
        (processTrigger env).loggedError = true) := by
  have hnext : ∀ env : TriggerEnv, (processTrigger env).ctl = Ctl.next := by
    intro env
    rcases env with ⟨l, m, r, f⟩
    cases l <;> cases m <;> cases f <;> simp [processTrigger]
  refine ⟨?_, hnext, ?_⟩
  · intro q
    induction q with
    | nil => rfl
    | cons env rest ih =>
      have h := hnext env
      cases hp : processTrigger env with
      | mk ws c lg =>
        rw [hp] at h
        simp only at h
        subst h
        simp [serviceLoop, hp, ih]
  · intro env
    rcases env with ⟨l, m, r, f⟩
    cases l <;> cases m <;> cases f <;> simp [processTrigger, hitsDBError]

/-- C8 witness: a trigger whose task lookup fails with a database error is
logged, and the loop still consumes both entries of a two-entry queue. -/
theorem worker_loop_survives_db_errors_witness :
    (serviceLoop [⟨some (gs "record not found"), none, none, none⟩,
        ⟨none, none, none, none⟩]).length = 2
  ∧ (processTrigger ⟨some (gs "record not found"), none, none, none⟩).loggedError
      = true :=
  ⟨(worker_loop_survives_db_errors.1
      [⟨some (gs "record not found"), none, none, none⟩,
        ⟨none, none, none, none⟩]).trans rfl,
    worker_loop_survives_db_errors.2.2
      ⟨some (gs "record not found"), none, none, none⟩ (by decide)⟩

/-- C10 (code-bug evidence): after a successful execution the part_000
worker sets status 2 and an empty error in memory, but the struct-based
Updates skips the zero-valued Error field, so the persisted row keeps the
stale error message of the earlier failed run while showing status
Succeeded; the main.go variant also leaves the stale message in place (its
updateTask never writes the error column at all). -/
theorem succeeded_task_keeps_stale_error :
    (workerFinalizeTask_part0 { sampleTask with status := 3, error := gs "boom" } none).status = 2
  ∧ (workerFinalizeTask_part0 { sampleTask with status := 3, error := gs "boom" } none).error = []
  ∧ (updateTask_part0 { sampleTask with status := 3, error := gs "boom" }
      (workerFinalizeTask_part0 { sampleTask with status := 3, error := gs "boom" } none) 7).status = 2
  ∧ (updateTask_part0 { sampleTask with status := 3, error := gs "boom" }
      (workerFinalizeTask_part0 { sampleTask with status := 3, error := gs "boom" } none) 7).error = gs "boom"
  ∧ (updateTask_main { sampleTask with status := 3, error := gs "boom" }
      (workerFinalizeTask_main { sampleTask with status := 3, error := gs "boom" } none) 7).error = gs "boom" := by
  decide

/-! ### The dispatch queue

`taskChan = make(chan string)` (part_000 line 81, main.go line 232) is
created without a capacity, i.e. unbuffered, and `main` spawns exactly two
consumer goroutines of `startRunAnsiblePlaybookService` (part_000 lines
127-130, main.go lines 274-277).  The run-trigger HTTP handler performs the
blocking send `taskChan <- taskId`.  Per Go's channel semantics an
unbuffered send completes only by rendezvous with a receiver, so the
dispatcher is modelled as a step relation: a `trigger` blocks a sender on
the channel, a `deliver` hands the head blocked trigger to a free worker
(possible only while fewer than `workerCount` executions run), and a
`finish` frees a worker. -/

def taskChanCapacity : Nat := 0

def workerCount : Nat := 2

structure DispatchState where
  blocked : List Nat
  running : List Nat
  done : List Nat
  triggered : List Nat
deriving Repr, DecidableEq

inductive DispatchStep : DispatchState → DispatchState → Prop
  | trigger (s : DispatchState) (id : Nat) :
      DispatchStep s ⟨s.blocked ++ [id], s.running, s.done, s.triggered ++ [id]⟩
  | deliver (s : DispatchState) (id : Nat) (rest : List Nat)
      (hq : s.blocked = id :: rest) (hw : s.running.length < workerCount) :
      DispatchStep s ⟨rest, s.running ++ [id], s.done, s.triggered⟩
  | finish (s : DispatchState) (id : Nat) (pre post : List Nat)
      (hr : s.running = pre ++ id :: post) :
      DispatchStep s ⟨s.blocked, pre ++ post, s.done ++ [id], s.triggered⟩

def initDispatch : DispatchState := ⟨[], [], [], []⟩

def DispatchReachable (s : DispatchState) : Prop :=
  Relation.ReflTransGen DispatchStep initDispatch s

/-- C9: the dispatch channel is created with capacity 0 (unbuffered) and is
consumed by exactly two workers; in every reachable dispatch state at most
two executions run concurrently, and every issued run-trigger is accounted
for as still-blocked, running, or finished — no run-trigger is ever
silently dropped; and from a state in which both workers are busy, no step
delivers a blocked trigger: the set of blocked senders can only stay or
grow until a worker frees up. -/
theorem dispatch_unbuffered_two_workers :
    taskChanCapacity = 0
  ∧ workerCount = 2
  ∧ (∀ s : DispatchState, DispatchReachable s →
      s.running.length ≤ workerCount
      ∧ (s.blocked : Multiset Nat) + ↑s.running + ↑s.done = ↑s.triggered)
  ∧ (∀ s s' : DispatchState, s.running.length = workerCount →
      DispatchStep s s' →
      s'.blocked = s.blocked ∨ ∃ id, s'.blocked = s.blocked ++ [id]) := by
  refine ⟨rfl, rfl, ?_, ?_⟩
  · intro s h
    induction h with
    | refl => exact ⟨by simp [initDispatch, workerCount], by simp [initDispatch]⟩
    | tail hsteps hstep ih =>
      obtain ⟨ihlen, ihcons⟩ := ih
      cases hstep with
      | trigger id =>
        refine ⟨by simpa using ihlen, ?_⟩
        simp only [← Multiset.coe_add] at ihcons ⊢
        rw [← ihcons]
        abel
      | deliver id rest hq hw =>
        refine ⟨?_, ?_⟩
        · simp only [List.length_append, List.length_cons, List.length_nil]
          omega
        · rw [hq] at ihcons
          simp only [← Multiset.coe_add, ← Multiset.cons_coe,
            ← Multiset.singleton_add, Multiset.coe_singleton] at ihcons ⊢
          rw [← ihcons]
          abel
      | finish id pre post hr =>
        refine ⟨?_, ?_⟩
        · rw [hr] at ihlen
          simp only [List.length_append, List.length_cons] at ihlen ⊢
          omega
        · rw [hr] at ihcons
          simp only [← Multiset.coe_add, ← Multiset.cons_coe,
            ← Multiset.singleton_add, Multiset.coe_singleton] at ihcons ⊢
          rw [← ihcons]
          abel
  · intro s s' hfull hstep
    cases hstep with
    | trigger id => exact Or.inr ⟨id, rfl⟩
    | deliver id rest hq hw => omega
    | finish id pre post hr => exact Or.inl rfl

/-- C9 witness: the theorem applied at the reachable state in which one
trigger has been issued and delivered to a worker, and, for the blocking
part, at a state with both workers busy taking a `trigger` step. -/
theorem dispatch_unbuffered_two_workers_witness :
    ((⟨[], [5], [], [5]⟩ : DispatchState).running.length ≤ workerCount
      ∧ ((⟨[], [5], [], [5]⟩ : DispatchState).blocked : Multiset Nat)
          + ↑(⟨[], [5], [], [5]⟩ : DispatchState).running
          + ↑(⟨[], [5], [], [5]⟩ : DispatchState).done
          = ↑(⟨[], [5], [], [5]⟩ : DispatchState).triggered)
  ∧ ((⟨[9], [1, 2], [], [1, 2, 9]⟩ : DispatchState).blocked
        = (⟨[], [1, 2], [], [1, 2]⟩ : DispatchState).blocked
      ∨ ∃ id, (⟨[9], [1, 2], [], [1, 2, 9]⟩ : DispatchState).blocked
        = (⟨[], [1, 2], [], [1, 2]⟩ : DispatchState).blocked ++ [id]) :=
  ⟨dispatch_unbuffered_two_workers.2.2.1 ⟨[], [5], [], [5]⟩
      (Relation.ReflTransGen.tail
        (Relation.ReflTransGen.tail Relation.ReflTransGen.refl
          (DispatchStep.trigger initDispatch 5))
        (DispatchStep.deliver ⟨[5], [], [], [5]⟩ 5 [] rfl (by decide))),
    dispatch_unbuffered_two_workers.2.2.2 ⟨[], [1, 2], [], [1, 2]⟩
      ⟨[9], [1, 2], [], [1, 2, 9]⟩ rfl
      (DispatchStep.trigger ⟨[], [1, 2], [], [1, 2]⟩ 9)⟩

end AnsibleRunnerWeb
